import Mathlib

/-!
Verification of the fitbit2garmin "missing tcx" pipeline against its
natural-language specification.  The Python sources are shallowly embedded:
pure computations become Lean functions over `Int`/`Nat`/`ℚ`, the stateful
fetch pipeline of `commands.py` becomes a function from the observable
file-system state to the list of effects it performs, and fallible code
returns `Except`/`Option`.
-/

namespace Fitbit2Garmin

/-! ## Numeric helpers shared by both encoders

`pyRound` models Python's builtin `round` (round half to even).
`meanQ` models `statistics.mean` over integers as an exact rational.
`listMax`/`listMin` model Python's `max`/`min` over a list; the `[]` case
is a default that the encoders never reach (they fail first on an empty
heart-rate series). -/

def pyRound (q : ℚ) : Int :=
  let f := q.floor
  let r := q - (f : ℚ)
  if r < 1/2 then f
  else if 1/2 < r then f + 1
  else if f % 2 = 0 then f else f + 1

def meanQ (l : List Int) : ℚ :=
  ((l.foldl (· + ·) 0 : Int) : ℚ) / (l.length : ℚ)

def listMax : List Int → Int
  | [] => 0
  | x :: xs => xs.foldl max x

def listMin : List Int → Int
  | [] => 0
  | x :: xs => xs.foldl min x

/-- Minute truncation `dt.replace(second=0, microsecond=0)` on a wall-clock
time measured in seconds (floor to the minute, as Python datetimes are
always on or after the epoch in this pipeline). -/
def truncToMinute (t : Int) : Int :=
  60 * Int.fdiv t 60

/-- Dictionary lookup for a map built by successive insertions
(`cal_map[k] = v` in insertion order): the last write wins. -/
def dictGet (m : List (Int × ℚ)) (k : Int) : Option ℚ :=
  (m.reverse.find? (fun p => p.1 == k)).map (·.2)

/-- The calorie map both encoders build: each intraday entry keyed by its
minute-truncated wall-clock timestamp. -/
def buildCalMap (cal : List (Int × ℚ)) : List (Int × ℚ) :=
  cal.map (fun p => (truncToMinute p.1, p.2))

/-! ## Decimal formatting

`formatFixed d q` models Python's fixed-point formatting `f"{q:.df}"`
(round half to even, `d` digits after the point). -/

def natPadZeros (w : Nat) (n : Nat) : String :=
  let s := toString n
  String.mk (List.replicate (w - s.length) '0') ++ s

def formatFixed (digits : Nat) (q : ℚ) : String :=
  let scaled := pyRound (q * ((10 : ℚ) ^ digits))
  let n := scaled.natAbs
  let sign := if scaled < 0 then "-" else ""
  if digits = 0 then sign ++ toString n
  else sign ++ toString (n / 10 ^ digits) ++ "." ++ natPadZeros digits (n % 10 ^ digits)

/-! ## Calendar rendering

`civilFromDays` converts days since 1970-01-01 to a Gregorian (year,
month, day) triple; `formatWall` renders a wall-clock time (seconds) as
`strftime("%Y-%m-%dT%H:%M:%S")` does, i.e. from its own components with
no time-zone conversion. -/

def civilFromDays (z0 : Int) : Int × Nat × Nat :=
  let z := z0 + 719468
  let era := Int.fdiv z 146097
  let doe := (z - era * 146097).toNat
  let yoe := (doe - doe / 1460 + doe / 36524 - doe / 146096) / 365
  let y : Int := (yoe : Int) + era * 400
  let doy := doe - (365 * yoe + yoe / 4 - yoe / 100)
  let mp := (5 * doy + 2) / 153
  let d := doy - (153 * mp + 2) / 5 + 1
  let m := if mp < 10 then mp + 3 else mp - 9
  (if m ≤ 2 then y + 1 else y, m, d)

def pad4 (n : Int) : String :=
  natPadZeros 4 n.toNat

def formatWall (t : Int) : String :=
  let days := Int.fdiv t 86400
  let sod := (t - days * 86400).toNat
  let ymd := civilFromDays days
  pad4 ymd.1 ++ "-" ++ natPadZeros 2 ymd.2.1 ++ "-" ++ natPadZeros 2 ymd.2.2 ++
    "T" ++ natPadZeros 2 (sod / 3600) ++ ":" ++ natPadZeros 2 (sod % 3600 / 60) ++
    ":" ++ natPadZeros 2 (sod % 60)

/-! ## commands.py — the fetch pipeline as an effect trace

`create_activity_tcx_or_fit` is embedded as a function from the observable
on-disk state (which cache files exist) and the fetched payloads to the
ordered list of effects the run performs.  Every wrapped network call first
rewrites the `.auth` token file (the retry wrapper re-authorizes and writes
the token before each request), so each network effect is preceded by a
`writeAuth` effect. -/

/-- One parsed line of the activity-log list (`json.loads` of a `.jsonl`
line), restricted to the keys `commands.py` reads.  `heartRateLink` and
`caloriesLink` model `activity.get(..., "missing")`: `none` means the key
is absent. -/
structure ActivityEntry where
  logId : String
  logType : String
  activityName : String
  heartRateLink : Option String
  caloriesLink : Option String
deriving Repr, DecidableEq

/-- `activity.get(key, "missing")`. -/
def getLink : Option String → String
  | some u => u
  | none => "missing"

/-- `tcx.count(b"\n")` on the fetched per-activity payload (bytes). -/
def countNewlines (tcx : List Nat) : Nat :=
  (tcx.filter (fun b => b == 10)).length

/-- Which of one activity's cache files already exist under the output
directory before the activity is processed. -/
structure ActivityFiles where
  activityJsonExists : Bool
  hrJsonExists : Bool
  calJsonExists : Bool
deriving Repr, DecidableEq

/-- The observable effects of one run, in program order. -/
inductive Effect where
  | writeAuth
  | netListFetch
  | writeListJsonl
  | touchMarker
  | netTcxFetch (logId : String)
  | writeActivityJson (logId : String)
  | netHeartRateFetch (url : String)
  | writeHeartRateJson (logId : String)
  | netCaloriesFetch (url : String)
  | writeCaloriesJson (logId : String)
  | invokeEncoder (logId : String)
  | writeOutput (logId : String)
  | promptSkip (logId : String)
deriving Repr, DecidableEq

/-- The decision gate of `commands.py` lines 119-121: the activity is
processed (heart rate fetched, encoder invoked) exactly when
`(activity["logType"] == "auto_detected" or tcx.count(b"\n") <= 15) and
heart_rate_url != "missing"`. -/
def gatePasses (a : ActivityEntry) (tcx : List Nat) : Bool :=
  (a.logType == "auto_detected" || decide (countNewlines tcx ≤ 15)) &&
    !(getLink a.heartRateLink == "missing")

/-- The per-activity loop body (`commands.py` lines 95-162).  `calFetchOk`
records whether the calories call returned a non-`None` payload. -/
def processActivity (fs : ActivityFiles) (a : ActivityEntry) (tcx : List Nat)
    (calFetchOk : Bool) : List Effect :=
  [Effect.writeAuth, Effect.netTcxFetch a.logId] ++
  (if fs.activityJsonExists then [] else [Effect.writeActivityJson a.logId]) ++
  (if gatePasses a tcx then
    (if fs.hrJsonExists then [] else
      [Effect.writeAuth, Effect.netHeartRateFetch (getLink a.heartRateLink),
       Effect.writeHeartRateJson a.logId]) ++
    (if getLink a.caloriesLink == "missing" then [] else
      (if fs.calJsonExists then [] else
        [Effect.writeAuth, Effect.netCaloriesFetch (getLink a.caloriesLink)] ++
        (if calFetchOk then [Effect.writeCaloriesJson a.logId] else []))) ++
    [Effect.invokeEncoder a.logId, Effect.writeOutput a.logId]
  else [Effect.promptSkip a.logId])

/-- The activity-log list step (`commands.py` lines 75-87): fetch, rewrite
the `.jsonl` file and touch the marker unless **both** the `.jsonl` file
and its marker already exist. -/
def listFetchEffects (jsonlExists markerExists : Bool) : List Effect :=
  if !jsonlExists || !markerExists then
    [Effect.writeAuth, Effect.netListFetch, Effect.writeListJsonl, Effect.touchMarker]
  else []

/-- A whole run: the list step followed by each activity in order. -/
def runEffects (jsonlExists markerExists : Bool)
    (acts : List (ActivityFiles × ActivityEntry × List Nat × Bool)) : List Effect :=
  listFetchEffects jsonlExists markerExists ++
    acts.foldr (fun pa acc => processActivity pa.1 pa.2.1 pa.2.2.1 pa.2.2.2 ++ acc) []

/-- Does the trace contain any network call? -/
def hasNet (l : List Effect) : Bool :=
  l.any fun e => match e with
    | .netListFetch => true
    | .netTcxFetch _ => true
    | .netHeartRateFetch _ => true
    | .netCaloriesFetch _ => true
    | _ => false

def hasHrFetch (l : List Effect) : Bool :=
  l.any fun e => match e with
    | .netHeartRateFetch _ => true
    | _ => false

def hasCalFetch (l : List Effect) : Bool :=
  l.any fun e => match e with
    | .netCaloriesFetch _ => true
    | _ => false

def hasActivityJsonWrite (l : List Effect) : Bool :=
  l.any fun e => match e with
    | .writeActivityJson _ => true
    | _ => false

def hasHrJsonWrite (l : List Effect) : Bool :=
  l.any fun e => match e with
    | .writeHeartRateJson _ => true
    | _ => false

def hasCalJsonWrite (l : List Effect) : Bool :=
  l.any fun e => match e with
    | .writeCaloriesJson _ => true
    | _ => false

def hasListJsonlWrite (l : List Effect) : Bool :=
  l.any fun e => match e with
    | .writeListJsonl => true
    | _ => false

def hasOutputWrite (l : List Effect) : Bool :=
  l.any fun e => match e with
    | .writeOutput _ => true
    | _ => false

/-- Does the trace write a file that already existed before the run?
The pre-existing files are given explicitly; per-`logId` files by the list
of `logId`s whose file exists. -/
def overwritesExisting (authExists jsonlExists : Bool)
    (existingOutputs existingActivityJsons existingHrJsons existingCalJsons : List String)
    (l : List Effect) : Bool :=
  l.any fun e => match e with
    | .writeAuth => authExists
    | .writeListJsonl => jsonlExists
    | .writeOutput i => existingOutputs.contains i
    | .writeActivityJson i => existingActivityJsons.contains i
    | .writeHeartRateJson i => existingHrJsons.contains i
    | .writeCaloriesJson i => existingCalJsons.contains i
    | _ => false

/-! ## The retry wrapper (`run_aiohttp_fitbit_api_call`)

Each loop iteration either succeeds, raises a transient exception
(`aiohttp.ClientResponseError` or `asyncio.TimeoutError`, both caught:
logged and retried), or raises any other exception, which escapes the
`try` and propagates to the caller.  The wrapper is embedded as a function
of the sequence of attempt outcomes: `some (.ok v)` models returning `v`,
`some (.error m)` models an escaping exception, and `none` means the given
attempts were exhausted with the loop still retrying (the unbounded loop
never returns to the caller on transient failures). -/

inductive Attempt (α : Type) where
  | success (v : α)
  | responseError
  | timeout
  | fatal (msg : String)
deriving Repr, DecidableEq

def Attempt.isTransient {α : Type} : Attempt α → Bool
  | .responseError => true
  | .timeout => true
  | _ => false

def retryLoop {α : Type} : List (Attempt α) → Option (Except String α)
  | [] => none
  | .success v :: _ => some (.ok v)
  | .responseError :: rest => retryLoop rest
  | .timeout :: rest => retryLoop rest
  | .fatal m :: _ => some (.error m)

/-! ## The per-activity JSON inputs shared by both encoders

Wall-clock times are seconds; `startOffsetSec` is the UTC offset carried by
`activity["startTime"]` (and sliced back onto every intraday sample, which
both encoders tag with the start time's zone).  Optional keys read through
`activity.get` are `Option`; keys read by subscription raise `KeyError`
when absent, which the encoder embeddings surface as an error. -/

structure ActivityJson where
  startWallSec : Int
  startOffsetSec : Int
  durationMs : ℚ
  distance : Option ℚ
  steps : Option Int
  elevationGain : Option ℚ
  calories : Option Int
  activityName : Option String
  sourceName : String
deriving Repr, DecidableEq

inductive EncodeError where
  | keyError (k : String)
  | emptySeries
  | zeroDivision
deriving Repr, DecidableEq

instance {ε α : Type} [DecidableEq ε] [DecidableEq α] : DecidableEq (Except ε α) := fun x y =>
  match x, y with
  | .ok a, .ok b => if h : a = b then isTrue (by rw [h]) else isFalse (by simp [h])
  | .error a, .error b => if h : a = b then isTrue (by rw [h]) else isFalse (by simp [h])
  | .ok _, .error _ => isFalse (by simp)
  | .error _, .ok _ => isFalse (by simp)

/-! ## create_tcx.py -/

def FITBIT_TO_GARMIN_SPORT : List (String × String) :=
  [("Run", "Running"), ("Walk", "Walking"), ("Hike", "Hiking"),
   ("Bike", "Biking"), ("Swim", "Swimming"), ("Treadmill", "Running"),
   ("Elliptical", "Other"), ("Yoga", "Other"),
   ("Strength Training", "Other"), ("Workout", "Other")]

def TCX_DISTANCE_RELEVANT : List String :=
  ["Run", "Walk", "Hike", "Bike", "Treadmill", "Swim", "Sport"]

/-- The XML encoder's distance fallback (`create_tcx.py` lines 75-82):
the raw `distance` must be exactly zero, `steps` strictly positive and the
activity name in the TCX allow-list; the second component records whether
the fallback estimate was taken. -/
def tcxDistanceFallback (distance_km : ℚ) (steps : Int) (name : String) : ℚ × Bool :=
  if distance_km = 0 then
    if 0 < steps ∧ name ∈ TCX_DISTANCE_RELEVANT then
      (((steps : ℚ) * 0.762) / 1000, true)
    else (distance_km, false)
  else (distance_km, false)

/-- The XML encoder's per-trackpoint calorie extension (`create_tcx.py`
lines 170-182): present only when calories are available, the minute
bucket is found **and** the bucket value is truthy (non-zero); the text is
the per-second rate formatted to 5 decimal places. -/
def tcxCalExt (calAvailable : Bool) (calMap : List (Int × ℚ)) (ts : Int) : Option String :=
  if calAvailable then
    match dictGet calMap (truncToMinute ts) with
    | some v => if v ≠ 0 then some (formatFixed 5 (v / 60)) else none
    | none => none
  else none

/-- One `Trackpoint` element: its `Time` text, `HeartRateBpm/Value` text,
and the optional `Extensions/TPX/Calories` text. -/
structure TcxTrackpoint where
  timeText : String
  hrValue : String
  caloriesExt : Option String
deriving Repr, DecidableEq

/-- The text content the XML encoder writes, one field per
`ET.SubElement` of `create_tcx.py`. -/
structure TcxActivity where
  sport : String
  idText : String
  lapStartTime : String
  totalTimeSeconds : String
  distanceMeters : String
  caloriesText : String
  avgHrValue : String
  maxHrValue : String
  intensity : String
  triggerMethod : String
  trackpoints : List TcxTrackpoint
  creatorName : String
deriving Repr, DecidableEq

/-- Input to the XML encoder after JSON parsing: the activity detail, the
heart-rate samples as (wall-clock seconds, bpm) pairs, and the calorie
samples as (wall-clock seconds, value) pairs (`none` when the calories
file is absent). -/
structure TcxInput where
  activity : ActivityJson
  hrSamples : List (Int × Int)
  calData : Option (List (Int × ℚ))
deriving Repr, DecidableEq

/-- `create_tcx` (`create_tcx.py`): fails with `KeyError` when
`activity["calories"]` is missing and with `ValueError` (here
`emptySeries`) when the heart-rate dataset is empty (`max`/`mean` of an
empty list); otherwise produces the element texts of the output document.
All timestamps are rendered by `strftime` from the **local wall clock**
with a literal `Z` (resp. `.000Z`) suffix appended.
This is the successful branch, for a non-empty heart-rate series
`hd :: tl` with `activity["calories"] = calories_total`. -/
def tcxBuild (act : ActivityJson) (calories_total : Int) (hd : Int × Int)
    (tl : List (Int × Int)) (calData : Option (List (Int × ℚ))) : TcxActivity :=
  let total_seconds : ℚ := act.durationMs / 1000
  let fitbit_activity := act.activityName.getD "Workout"
  let garmin_sport :=
    ((FITBIT_TO_GARMIN_SPORT.find? (fun p => p.1 == fitbit_activity)).map (·.2)).getD "Other"
  let distance_km :=
    (tcxDistanceFallback (act.distance.getD 0) (act.steps.getD 0) fitbit_activity).1
  let hrValues := (hd :: tl).map (·.2)
  let max_hr := listMax hrValues
  let avg_hr := pyRound (meanQ hrValues)
  let calAvailable := calData.isSome
  let calMap := buildCalMap (calData.getD [])
  let startText := formatWall act.startWallSec ++ ".000Z"
  { sport := garmin_sport
    idText := startText
    lapStartTime := startText
    totalTimeSeconds := formatFixed 1 total_seconds
    distanceMeters := formatFixed 2 (distance_km * 1000)
    caloriesText := toString calories_total
    avgHrValue := toString avg_hr
    maxHrValue := toString max_hr
    intensity := "Active"
    triggerMethod := "Manual"
    trackpoints := (hd :: tl).map (fun p =>
      { timeText := formatWall p.1 ++ "Z"
        hrValue := toString p.2
        caloriesExt := tcxCalExt calAvailable calMap p.1 })
    creatorName := act.sourceName }

def create_tcx_core (inp : TcxInput) : Except EncodeError TcxActivity :=
  match inp.activity.calories with
  | none => .error (.keyError "calories")
  | some calories_total =>
    match inp.hrSamples with
    | [] => .error .emptySeries
    | hd :: tl => .ok (tcxBuild inp.activity calories_total hd tl inp.calData)

/-! ## create_fit.py -/

inductive FitSport where
  | running | walking | hiking | cycling | fitnessEquipment | swimming | soccer
deriving Repr, DecidableEq

inductive FitSubSport where
  | strengthTraining | elliptical
deriving Repr, DecidableEq

def FITBIT_TO_FIT_TOOL_SPORT : List (String × FitSport) :=
  [("Run", .running), ("Walk", .walking), ("Walking", .walking),
   ("Hike", .hiking), ("Bike", .cycling), ("Biking", .cycling),
   ("Outdoor Bike", .cycling), ("Treadmill", .running),
   ("Elliptical", .fitnessEquipment), ("Swim", .swimming),
   ("Strength Training", .fitnessEquipment), ("Workout", .fitnessEquipment),
   ("Weights", .fitnessEquipment), ("Aerobic Workout", .soccer),
   ("Sport", .soccer)]

def FIT_DISTANCE_RELEVANT : List String :=
  ["Run", "Walk", "Walking", "Hike", "Bike", "Biking", "Outdoor Bike",
   "Treadmill", "Swim", "Swimming", "Sport", "Elliptical", "Aerobic Workout"]

def FIT_ELEVATION_RELEVANT : List String :=
  ["Run", "Walk", "Walking", "Hike", "Bike", "Biking", "Outdoor Bike",
   "Treadmill", "Elliptical", "Hiking", "Running", "Cycling",
   "Aerobic Workout", "Sport"]

/-- Membership test for `activity.get("activityName")` (which may be
`None`, and `None` is in no allow-list). -/
def optNameMem (name : Option String) (l : List String) : Bool :=
  match name with
  | some n => l.contains n
  | none => false

/-- The binary encoder's distance fallback (`create_fit.py` lines
114-121): raw distance exactly zero, `steps` truthy (non-zero) and
`activity.get("activityName")` in the FIT allow-list. -/
def fitDistanceFallback (distance_km : ℚ) (steps : Int) (name : Option String) : ℚ × Bool :=
  if distance_km = 0 then
    if steps ≠ 0 ∧ optNameMem name FIT_DISTANCE_RELEVANT then
      (((steps : ℚ) * 0.762) / 1000, true)
    else (distance_km, false)
  else (distance_km, false)

/-- The binary encoder's per-record calories field (`create_fit.py` lines
252-256): present whenever calories are available and the minute bucket is
found (`is not None`), including a zero bucket value. -/
def fitCalField (calAvailable : Bool) (calMap : List (Int × ℚ)) (ts : Int) : Option ℚ :=
  if calAvailable then
    match dictGet calMap (truncToMinute ts) with
    | some v => some (v / 60)
    | none => none
  else none

/-- One record message: UTC timestamp in ms, heart rate, optional
calories-per-second. -/
structure FitRecord where
  timestampMs : Int
  heartRate : Int
  calories : Option ℚ
deriving Repr, DecidableEq

/-- The aggregate fields the code sets on the lap and session messages
(`timestampMs` is set on the lap only). -/
structure FitSummary where
  timestampMs : Option Int
  startTimeMs : Int
  messageIndex : Nat
  totalElapsedTime : ℚ
  totalTimerTime : ℚ
  totalMovingTime : ℚ
  totalDistance : ℚ
  totalCalories : Int
  averageHeartRate : Int
  maximumHeartRate : Int
  minHeartRate : Int
  avgSpeed : ℚ
  enhancedAvgSpeed : ℚ
  totalAscent : Int
  sport : FitSport
  subSport : Option FitSubSport
deriving Repr, DecidableEq

structure FitOutput where
  timeCreatedMs : Int
  lap : FitSummary
  session : FitSummary
  numLaps : Nat
  numSessions : Nat
  records : List FitRecord
deriving Repr, DecidableEq

structure FitInput where
  activity : ActivityJson
  hrSamples : List (Int × Int)
  calData : Option (List (Int × ℚ))
deriving Repr, DecidableEq

/-- `create_fit` (`create_fit.py`): raises `RuntimeError` on an empty
heart-rate series (line 146) and `ZeroDivisionError` at
`lap.avg_speed = distance_m / duration_s` when the duration is zero (line
207, reached before any message is emitted); all timestamps are true UTC
instants in milliseconds.
This is the successful branch, for a non-empty heart-rate series and a
non-zero duration. -/
def fitBuild (act : ActivityJson) (hd : Int × Int) (tl : List (Int × Int))
    (calData : Option (List (Int × ℚ))) : FitOutput :=
  let startMs : Int := (act.startWallSec - act.startOffsetSec) * 1000
  let duration_s : ℚ := act.durationMs / 1000
  let distance_km :=
    (fitDistanceFallback (act.distance.getD 0) (act.steps.getD 0) act.activityName).1
  let distance_m := distance_km * 1000
  let elevation_gain : Int :=
    if optNameMem act.activityName FIT_ELEVATION_RELEVANT then
      pyRound (act.elevationGain.getD 0)
    else 0
  let calories_total := act.calories.getD 0
  let fitbit_activity := act.activityName.getD "Workout"
  let fit_sport :=
    ((FITBIT_TO_FIT_TOOL_SPORT.find? (fun p => p.1 == fitbit_activity)).map (·.2)).getD
      .fitnessEquipment
  let sub_sport : Option FitSubSport :=
    if fitbit_activity == "Weights" then some .strengthTraining
    else if fitbit_activity == "Elliptical" then some .elliptical
    else none
  let hrValues := (hd :: tl).map (·.2)
  let min_hr := listMin hrValues
  let max_hr := listMax hrValues
  let avg_hr := pyRound (meanQ hrValues)
  let calAvailable := calData.isSome
  let calMap := buildCalMap (calData.getD [])
  let aggregates : FitSummary := {
    timestampMs := some startMs
    startTimeMs := startMs
    messageIndex := 0
    totalElapsedTime := duration_s
    totalTimerTime := duration_s
    totalMovingTime := duration_s
    totalDistance := distance_m
    totalCalories := calories_total
    averageHeartRate := avg_hr
    maximumHeartRate := max_hr
    minHeartRate := min_hr
    avgSpeed := distance_m / duration_s
    enhancedAvgSpeed := distance_m / duration_s
    totalAscent := elevation_gain
    sport := fit_sport
    subSport := sub_sport }
  { timeCreatedMs := startMs
    lap := aggregates
    session := { aggregates with timestampMs := none }
    numLaps := 1
    numSessions := 1
    records := (hd :: tl).map (fun p =>
      { timestampMs := (p.1 - act.startOffsetSec) * 1000
        heartRate := p.2
        calories := fitCalField calAvailable calMap p.1 }) }

def create_fit_core (inp : FitInput) : Except EncodeError FitOutput :=
  match inp.hrSamples with
  | [] => .error .emptySeries
  | hd :: tl =>
    -- in the source the `ZeroDivisionError` is raised at `lap.avg_speed`,
    -- after the pure metadata computations but before any message is
    -- emitted; hoisting the test above them does not change the result
    if inp.activity.durationMs / 1000 = (0 : ℚ) then .error .zeroDivision
    else .ok (fitBuild inp.activity hd tl inp.calData)

/-! ## Paths (`--directory` handling)

`commands.py` builds the per-activity JSON paths from the configured
output directory, while both encoders hard-code the literal root `f2g` in
every path they read or write. -/

def activityJsonPath (directory logId : String) : String :=
  directory ++ "/" ++ logId ++ "/exercise-activity.json"

def tcxHeartRateFile (logId : String) : String :=
  "f2g/" ++ logId ++ "/exercise-heart-rate.json"

def tcxCaloriesFile (logId : String) : String :=
  "f2g/" ++ logId ++ "/exercise-calories.json"

def tcxActivityFile (logId : String) : String :=
  "f2g/" ++ logId ++ "/exercise-activity.json"

def tcxOutputFile (logId : String) : String :=
  "f2g/exercise-" ++ logId ++ ".tcx"

def fitHeartRateFile (logId : String) : String :=
  "f2g/" ++ logId ++ "/exercise-heart-rate.json"

def fitCaloriesFile (logId : String) : String :=
  "f2g/" ++ logId ++ "/exercise-calories.json"

def fitActivityFile (logId : String) : String :=
  "f2g/" ++ logId ++ "/exercise-activity.json"

def fitOutputFile (logId : String) : String :=
  "f2g/exercise-" ++ logId ++ ".fit"

/-! ## Spec-side comparison definitions (refinement targets) -/

/-- Modelled from the spec: the output path the spec prescribes for a
configured output-directory root `d` ("the output directory root is
honored by the encode step for any value of D"). -/
def specTcxOutputFile (d logId : String) : String :=
  d ++ "/exercise-" ++ logId ++ ".tcx"

/-- Modelled from the spec: the per-activity input path under root `d`. -/
def specActivityFile (d logId : String) : String :=
  d ++ "/" ++ logId ++ "/exercise-activity.json"

/-- Modelled from the spec: a Trackpoint `Time` element "expressed in UTC
at second precision with a Z suffix" — the wall-clock components of the
UTC instant (local wall clock minus offset), rendered with `Z`. -/
def specUtcTrackpointTime (wallSec offsetSec : Int) : String :=
  formatWall (wallSec - offsetSec) ++ "Z"

/-- Modelled from the spec: activity `Id` / `Lap StartTime` in
"millisecond-suffixed ISO-8601 UTC". -/
def specUtcStartText (wallSec offsetSec : Int) : String :=
  formatWall (wallSec - offsetSec) ++ ".000Z"

/-- Modelled from the spec: the binary output path under root `d`. -/
def specFitOutputFile (d logId : String) : String :=
  d ++ "/exercise-" ++ logId ++ ".fit"

/-! # Claims -/

/-- C1 (counterexample): the spec says an activity is skipped exactly when
both (a) its logType is "auto_detected" or its payload has at most 15
lines, and (b) no heart-rate link is present.  The code in fact skips
whenever the processing condition (a ∧ link-present) fails: an activity
with logType "Run", a 20-line payload and a heart-rate link *present* is
skipped (prompt, no heart-rate fetch, no encoder), although the spec's
skip condition is false for it. -/
theorem c1_skip_gate_counterexample :
    (Effect.promptSkip "1" ∈
        processActivity ⟨false, false, false⟩ ⟨"1", "Run", "Run", some "hr", none⟩
          (List.replicate 20 10) false
      ∧ Effect.invokeEncoder "1" ∉
          processActivity ⟨false, false, false⟩ ⟨"1", "Run", "Run", some "hr", none⟩
            (List.replicate 20 10) false
      ∧ hasHrFetch (processActivity ⟨false, false, false⟩ ⟨"1", "Run", "Run", some "hr", none⟩
          (List.replicate 20 10) false) = false)
    ∧ ¬((("Run" : String) = "auto_detected" ∨ countNewlines (List.replicate 20 10) ≤ 15)
          ∧ getLink (some "hr") = "missing") := by
  decide

/-- C1 (amended): an activity is skipped (blocking prompt, no heart-rate
or calorie fetch, no encoder invocation) exactly when NOT both ((a) its
logType is "auto_detected" or its fetched payload has at most 15 newlines,
and (b') a heart-rate link IS present); even for a skipped activity the
per-activity detail payload is still fetched and its activity JSON is
still written when absent. -/
theorem c1_skip_gate_amended (fs : ActivityFiles) (a : ActivityEntry) (tcx : List Nat)
    (calFetchOk : Bool) :
    (Effect.promptSkip a.logId ∈ processActivity fs a tcx calFetchOk ↔
      gatePasses a tcx = false)
    ∧ (Effect.invokeEncoder a.logId ∈ processActivity fs a tcx calFetchOk ↔
      gatePasses a tcx = true)
    ∧ hasHrFetch (processActivity fs a tcx calFetchOk) =
      (gatePasses a tcx && !fs.hrJsonExists)
    ∧ hasCalFetch (processActivity fs a tcx calFetchOk) =
      (gatePasses a tcx && !(getLink a.caloriesLink == "missing") && !fs.calJsonExists)
    ∧ hasOutputWrite (processActivity fs a tcx calFetchOk) = gatePasses a tcx
    ∧ Effect.netTcxFetch a.logId ∈ processActivity fs a tcx calFetchOk
    ∧ hasActivityJsonWrite (processActivity fs a tcx calFetchOk) = !fs.activityJsonExists := by
  obtain ⟨aj, hj, cj⟩ := fs
  cases hg : gatePasses a tcx <;> cases aj <;> cases hj <;> cases cj <;>
    cases hb : (getLink a.caloriesLink == "missing") <;> cases calFetchOk <;>
      simp [processActivity, hasHrFetch, hasCalFetch, hasOutputWrite,
        hasActivityJsonWrite, hg, hb]

/-- C2 (counterexample): with the marker file present but the `.jsonl`
list file absent, the list step still issues a network call; and with
every per-activity cache file present, the per-activity detail fetch still
issues a network call — retrieval is not cache-checked before every
network call, and marker presence alone does not imply zero network
calls. -/
theorem c2_cache_before_network_counterexample :
    Effect.netListFetch ∈ listFetchEffects false true
    ∧ Effect.netTcxFetch "1" ∈
        processActivity ⟨true, true, true⟩ ⟨"1", "auto_detected", "Run", some "hr", some "cal"⟩
          [] true := by
  decide

/-- C2 (amended): the list step skips the network exactly when both the
`.jsonl` file and its marker exist; the heart-rate and calorie fetches are
cache-checked (they never fire when their target file exists); but the
per-activity detail fetch is unconditional — it happens on every run for
every listed activity, cached or not. -/
theorem c2_cache_before_network_amended (jsonlExists markerExists : Bool)
    (fs : ActivityFiles) (a : ActivityEntry) (tcx : List Nat) (calFetchOk : Bool) :
    hasNet (listFetchEffects jsonlExists markerExists) = (!jsonlExists || !markerExists)
    ∧ Effect.netTcxFetch a.logId ∈ processActivity fs a tcx calFetchOk
    ∧ (hasHrFetch (processActivity fs a tcx calFetchOk) && fs.hrJsonExists) = false
    ∧ (hasCalFetch (processActivity fs a tcx calFetchOk) && fs.calJsonExists) = false := by
  obtain ⟨aj, hj, cj⟩ := fs
  cases jsonlExists <;> cases markerExists <;> cases hg : gatePasses a tcx <;>
    cases aj <;> cases hj <;> cases cj <;>
      cases hb : (getLink a.caloriesLink == "missing") <;> cases calFetchOk <;>
        simp [processActivity, listFetchEffects, hasNet, hasHrFetch, hasCalFetch, hg, hb]

/-- C10 (counterexample): a fully warm state — token file, list file,
marker, all per-activity JSONs and the output file for activity "1" all
exist — is still written to by a re-run: the token file is rewritten by
the unconditional detail fetch and the output file is rewritten by the
encoder, so the directories are not append-only in effect. -/
theorem c10_append_only_counterexample :
    overwritesExisting true true ["1"] ["1"] ["1"] ["1"]
      (runEffects true true
        [(⟨true, true, true⟩, ⟨"1", "auto_detected", "Run", some "hr", none⟩, [], false)]) = true := by
  decide

/-- C10 (amended): only the three per-activity JSON files are
create-if-absent; the list `.jsonl` is rewritten whenever it or its marker
is absent; the token file is written by every run that processes at least
one activity (regardless of its prior existence); and the output file is
written on every encoder invocation (the gate passing), never guarded by
existence. -/
theorem c10_append_only_amended (jsonlExists markerExists : Bool) (fs : ActivityFiles)
    (a : ActivityEntry) (tcx : List Nat) (calFetchOk : Bool) :
    (hasActivityJsonWrite (processActivity fs a tcx calFetchOk) && fs.activityJsonExists) = false
    ∧ (hasHrJsonWrite (processActivity fs a tcx calFetchOk) && fs.hrJsonExists) = false
    ∧ (hasCalJsonWrite (processActivity fs a tcx calFetchOk) && fs.calJsonExists) = false
    ∧ hasListJsonlWrite (listFetchEffects jsonlExists markerExists) =
      (!jsonlExists || !markerExists)
    ∧ hasOutputWrite (processActivity fs a tcx calFetchOk) = gatePasses a tcx
    ∧ Effect.writeAuth ∈ processActivity fs a tcx calFetchOk := by
  have hlist : hasListJsonlWrite (listFetchEffects jsonlExists markerExists) =
      (!jsonlExists || !markerExists) := by
    cases jsonlExists <;> cases markerExists <;> simp [listFetchEffects, hasListJsonlWrite]
  obtain ⟨aj, hj, cj⟩ := fs
  refine ⟨?_, ?_, ?_, hlist, ?_, ?_⟩ <;>
    cases hg : gatePasses a tcx <;> cases aj <;> cases hj <;> cases cj <;>
      cases hb : (getLink a.caloriesLink == "missing") <;> cases calFetchOk <;>
        simp [processActivity, hasActivityJsonWrite, hasHrJsonWrite,
          hasCalJsonWrite, hasOutputWrite, hg, hb]

/-- Transient attempts (response errors and timeouts) are consumed by the
retry loop without affecting the eventual outcome. -/
lemma retryLoop_append_transient {α : Type} (pre rest : List (Attempt α))
    (h : ∀ x ∈ pre, x.isTransient = true) :
    retryLoop (pre ++ rest) = retryLoop rest := by
  revert h
  induction pre with
  | nil => intro _; rfl
  | cons x xs ih =>
    intro h
    cases x with
    | success v =>
      exact absurd (h _ (List.mem_cons_self _ _)) (by simp [Attempt.isTransient])
    | fatal m =>
      exact absurd (h _ (List.mem_cons_self _ _)) (by simp [Attempt.isTransient])
    | responseError =>
      simpa [retryLoop] using ih (fun y hy => h y (List.mem_cons_of_mem _ hy))
    | timeout =>
      simpa [retryLoop] using ih (fun y hy => h y (List.mem_cons_of_mem _ hy))

/-- C5: in the retry wrapper, any run of transient failures (timeouts or
server-classified response errors) is retried: a later success still
returns its value and a later non-transient application error still
propagates as the surfaced error; and a wrapped call that only ever sees
transient failures never surfaces anything to the caller (the loop keeps
retrying unboundedly). -/
theorem c5_retry_policy {α : Type} (pre post l : List (Attempt α)) (v : α) (m : String)
    (hpre : ∀ x ∈ pre, x.isTransient = true) (hl : ∀ x ∈ l, x.isTransient = true) :
    retryLoop (pre ++ Attempt.success v :: post) = some (Except.ok v)
    ∧ retryLoop (pre ++ Attempt.fatal m :: post) = some (Except.error m)
    ∧ retryLoop l = none := by
  refine ⟨?_, ?_, ?_⟩
  · rw [retryLoop_append_transient pre _ hpre]; rfl
  · rw [retryLoop_append_transient pre _ hpre]; rfl
  · rw [← List.append_nil l, retryLoop_append_transient l [] hl]; rfl

/-- C5 (witness): two transient failures followed by a success return the
success; a transient failure followed by a non-transient error surfaces
that error; a stream of only transient failures never returns. -/
theorem c5_retry_policy_witness :
    retryLoop ([Attempt.timeout, Attempt.responseError] ++ Attempt.success (7 : Nat) :: [])
      = some (Except.ok 7)
    ∧ retryLoop ([Attempt.timeout, Attempt.responseError] ++ Attempt.fatal (α := Nat) "bad json" :: [])
      = some (Except.error "bad json")
    ∧ retryLoop [Attempt.timeout (α := Nat), Attempt.responseError] = none :=
  c5_retry_policy [Attempt.timeout, Attempt.responseError]
    [] [Attempt.timeout, Attempt.responseError] 7 "bad json" (by decide) (by decide)

/-- C4 (counterexample): for the configured output root `D = "out"` the
encoders do not read from or write under `D`: both the output file path
and the per-activity input paths the encoders use differ from the
spec-prescribed `D`-rooted paths. -/
theorem c4_directory_counterexample :
    tcxOutputFile "123" ≠ specTcxOutputFile "out" "123"
    ∧ fitOutputFile "123" ≠ specFitOutputFile "out" "123"
    ∧ tcxActivityFile "123" ≠ specActivityFile "out" "123" := by
  decide

/-- C4 (amended): both encoders hard-code the literal root "f2g" in every
path they read or write, so the encode step matches the spec's layout only
for the root "f2g"; the fetch step's per-activity JSON path does honor the
configured root for every value of it. -/
theorem c4_directory_amended (d logId : String) :
    tcxOutputFile logId = specTcxOutputFile "f2g" logId
    ∧ fitOutputFile logId = specFitOutputFile "f2g" logId
    ∧ tcxActivityFile logId = specActivityFile "f2g" logId
    ∧ fitActivityFile logId = specActivityFile "f2g" logId
    ∧ tcxHeartRateFile logId = "f2g" ++ "/" ++ logId ++ "/exercise-heart-rate.json"
    ∧ fitHeartRateFile logId = "f2g" ++ "/" ++ logId ++ "/exercise-heart-rate.json"
    ∧ tcxCaloriesFile logId = "f2g" ++ "/" ++ logId ++ "/exercise-calories.json"
    ∧ fitCaloriesFile logId = "f2g" ++ "/" ++ logId ++ "/exercise-calories.json"
    ∧ activityJsonPath d logId = specActivityFile d logId := by
  refine ⟨rfl, rfl, rfl, rfl, rfl, rfl, rfl, rfl, rfl⟩

/-- C7 (counterexample): with raw distance exactly 0, activity type "Run"
(in both allow-lists) but zero steps, neither encoder's fallback triggers,
although the claimed iff-condition (distance 0 and type in the allow-list)
holds. -/
theorem c7_distance_fallback_counterexample :
    (tcxDistanceFallback 0 0 "Run").2 = false
    ∧ (fitDistanceFallback 0 0 (some "Run")).2 = false
    ∧ ((0 : ℚ) = 0 ∧ "Run" ∈ TCX_DISTANCE_RELEVANT)
    ∧ ((0 : ℚ) = 0 ∧ optNameMem (some "Run") FIT_DISTANCE_RELEVANT = true) := by
  decide

/-- C7 (amended): the distance fallback triggers if and only if the raw
distance is exactly 0, the step count is positive (non-zero for the
binary encoder), and the activity type is in that format's allow-list;
when it triggers the estimate is steps * 0.762 / 1000 km (so 1000 steps
yield 0.762 km), and otherwise the distance is left unchanged. -/
theorem c7_distance_fallback_amended (d : ℚ) (s : Int) (n : String) (n? : Option String) :
    ((tcxDistanceFallback d s n).2 = true ↔
      (d = 0 ∧ 0 < s ∧ n ∈ TCX_DISTANCE_RELEVANT))
    ∧ (tcxDistanceFallback d s n).1 =
      (if d = 0 ∧ 0 < s ∧ n ∈ TCX_DISTANCE_RELEVANT then ((s : ℚ) * 0.762) / 1000 else d)
    ∧ ((fitDistanceFallback d s n?).2 = true ↔
      (d = 0 ∧ s ≠ 0 ∧ optNameMem n? FIT_DISTANCE_RELEVANT = true))
    ∧ (fitDistanceFallback d s n?).1 =
      (if d = 0 ∧ s ≠ 0 ∧ optNameMem n? FIT_DISTANCE_RELEVANT = true then
        ((s : ℚ) * 0.762) / 1000 else d)
    ∧ (tcxDistanceFallback 0 1000 "Run").1 = 0.762
    ∧ (fitDistanceFallback 0 1000 (some "Run")).1 = 0.762 := by
  refine ⟨?_, ?_, ?_, ?_, ?_, ?_⟩
  · simp only [tcxDistanceFallback]; split_ifs <;> simp_all
  · simp only [tcxDistanceFallback]; split_ifs <;> simp_all
  · simp only [fitDistanceFallback]; split_ifs <;> simp_all
  · simp only [fitDistanceFallback]; split_ifs <;> simp_all
  · norm_num [tcxDistanceFallback, TCX_DISTANCE_RELEVANT]
  · norm_num [fitDistanceFallback, optNameMem, FIT_DISTANCE_RELEVANT]

/-- C3 (counterexample): the division deriving average speed is not
guarded: a degenerate activity with zero duration (and no distance) makes
the binary encoder abort with a division error instead of yielding zero
speed. -/
theorem c3_avg_speed_counterexample :
    create_fit_core ⟨⟨0, 0, 0, none, none, none, some 100, some "Run", "src"⟩, [(0, 80)], none⟩
      = Except.error EncodeError.zeroDivision := by
  norm_num [create_fit_core]

/-- C3 (amended): in the binary encoder, average speed in both the lap and
session messages is distanceMeters / durationSeconds; a zero-distance
activity with non-zero duration yields zero speed, but the division is not
guarded: a zero-duration activity raises a division error (the encoder
produces no output) instead of yielding zero speed. -/
theorem c3_avg_speed_amended (act : ActivityJson) (hr : List (Int × Int))
    (cal : Option (List (Int × ℚ))) (hd : Int × Int) (tl : List (Int × Int))
    (h1 : hr = hd :: tl) :
    (act.durationMs ≠ 0 →
      ∃ out, create_fit_core ⟨act, hr, cal⟩ = Except.ok out
        ∧ out.lap.avgSpeed = out.lap.totalDistance / (act.durationMs / 1000)
        ∧ out.session.avgSpeed = out.lap.avgSpeed
        ∧ out.lap.enhancedAvgSpeed = out.lap.avgSpeed
        ∧ out.session.enhancedAvgSpeed = out.lap.avgSpeed
        ∧ (out.lap.totalDistance = 0 → out.lap.avgSpeed = 0))
    ∧ (act.durationMs = 0 →
      create_fit_core ⟨act, hr, cal⟩ = Except.error EncodeError.zeroDivision) := by
  subst h1
  constructor
  · intro hne
    have hd0 : ¬(act.durationMs / 1000 = (0 : ℚ)) := by
      simp [div_eq_zero_iff, hne]
    have key : create_fit_core ⟨act, hd :: tl, cal⟩ = Except.ok (fitBuild act hd tl cal) := by
      show (if act.durationMs / 1000 = (0 : ℚ) then Except.error EncodeError.zeroDivision
        else Except.ok (fitBuild act hd tl cal)) = Except.ok (fitBuild act hd tl cal)
      rw [if_neg hd0]
    refine ⟨_, key, rfl, rfl, rfl, rfl, fun h0 => ?_⟩
    show (fitBuild act hd tl cal).lap.totalDistance / (act.durationMs / 1000) = 0
    rw [h0, zero_div]
  · intro h0
    have hz : act.durationMs / 1000 = (0 : ℚ) := by rw [h0]; norm_num
    show (if act.durationMs / 1000 = (0 : ℚ) then Except.error EncodeError.zeroDivision
      else Except.ok (fitBuild act hd tl cal)) = Except.error EncodeError.zeroDivision
    rw [if_pos hz]

/-- C3 (witness): a one-minute activity with one heart-rate sample
encodes with average speed equal to distance over duration in lap and
session. -/
theorem c3_avg_speed_witness :
    ∃ out, create_fit_core
        ⟨⟨0, 0, 60000, some 1, none, none, some 50, some "Run", "s"⟩, [(0, 80)], none⟩
      = Except.ok out
      ∧ out.lap.avgSpeed = out.lap.totalDistance / ((60000 : ℚ) / 1000)
      ∧ out.session.avgSpeed = out.lap.avgSpeed
      ∧ out.lap.enhancedAvgSpeed = out.lap.avgSpeed
      ∧ out.session.enhancedAvgSpeed = out.lap.avgSpeed
      ∧ (out.lap.totalDistance = 0 → out.lap.avgSpeed = 0) :=
  (c3_avg_speed_amended ⟨0, 0, 60000, some 1, none, none, some 50, some "Run", "s"⟩
    [(0, 80)] none (0, 80) [] rfl).1 (by norm_num)

/-- C6 (counterexample): a heart-rate sample whose minute bucket is found
with value 0 gets no calorie annotation from the XML encoder (the bucket
value is truthiness-tested), contradicting "for every bucket value,
including a bucket value of 0". -/
theorem c6_calories_per_second_counterexample :
    dictGet (buildCalMap [(0, 0)]) (truncToMinute 30) = some 0
    ∧ Except.map (fun o => o.trackpoints.map (·.caloriesExt))
        (create_tcx_core
          ⟨⟨0, 0, 60000, some 1, none, none, some 50, some "Run", "s"⟩, [(30, 80)], some [(0, 0)]⟩)
      = Except.ok [none] := by
  constructor
  · decide
  · decide

/-- C6 (amended): when the calorie map contains the sample's
minute-truncated timestamp with value v, the binary encoder always emits
caloriesPerSecond = v / 60, while the XML encoder emits it (formatted to 5
decimal places) only for v ≠ 0 and omits the annotation for v = 0; when
calories are unavailable or the bucket is not found, both omit it.  The
encoders' per-record annotations are exactly these functions of each
sample's timestamp. -/
theorem c6_calories_per_second_amended (avail : Bool) (m : List (Int × ℚ)) (ts : Int) :
    (∀ v : ℚ, avail = true → dictGet m (truncToMinute ts) = some v →
      fitCalField avail m ts = some (v / 60)
      ∧ (v ≠ 0 → tcxCalExt avail m ts = some (formatFixed 5 (v / 60)))
      ∧ (v = 0 → tcxCalExt avail m ts = none))
    ∧ ((avail = false ∨ dictGet m (truncToMinute ts) = none) →
      tcxCalExt avail m ts = none ∧ fitCalField avail m ts = none)
    ∧ (∀ (inp : TcxInput) (c : Int) (hd : Int × Int) (tl : List (Int × Int)),
      inp.activity.calories = some c → inp.hrSamples = hd :: tl →
      Except.map (fun o => o.trackpoints.map (·.caloriesExt)) (create_tcx_core inp)
        = Except.ok ((hd :: tl).map (fun p =>
            tcxCalExt inp.calData.isSome (buildCalMap (inp.calData.getD [])) p.1)))
    ∧ (∀ (inp : FitInput) (hd : Int × Int) (tl : List (Int × Int)),
      inp.hrSamples = hd :: tl → ¬(inp.activity.durationMs / 1000 = (0 : ℚ)) →
      Except.map (fun o => o.records.map (·.calories)) (create_fit_core inp)
        = Except.ok ((hd :: tl).map (fun p =>
            fitCalField inp.calData.isSome (buildCalMap (inp.calData.getD [])) p.1))) := by
  refine ⟨?_, ?_, ?_, ?_⟩
  · intro v hA hG
    subst hA
    refine ⟨by simp [fitCalField, hG], fun hv => ?_, fun hv => ?_⟩
    · simp [tcxCalExt, hG, hv]
    · subst hv; simp [tcxCalExt, hG]
  · intro h
    rcases h with h | h
    · subst h; simp [tcxCalExt, fitCalField]
    · cases avail <;> simp [tcxCalExt, fitCalField, h]
  · intro inp c hd tl h1 h2
    have key : create_tcx_core inp = Except.ok (tcxBuild inp.activity c hd tl inp.calData) := by
      unfold create_tcx_core
      rw [h1, h2]
    rw [key]
    simp [Except.map, tcxBuild, List.map_map, Function.comp]
  · intro inp hd tl h2 hdur
    have key : create_fit_core inp = Except.ok (fitBuild inp.activity hd tl inp.calData) := by
      unfold create_fit_core
      rw [h2]
      exact if_neg hdur
    rw [key]
    simp [Except.map, fitBuild, List.map_map, Function.comp]

/-- C6 (witness): with a calorie bucket of value 6 at the sample's minute,
the binary encoder emits 6/60 and the XML encoder emits the 5-decimal
formatting of 6/60; a concrete encoder run carries exactly these
annotations. -/
theorem c6_calories_per_second_witness :
    (fitCalField true [(0, 6)] 30 = some ((6 : ℚ) / 60)
      ∧ tcxCalExt true [(0, 6)] 30 = some (formatFixed 5 ((6 : ℚ) / 60)))
    ∧ Except.map (fun o => o.trackpoints.map (·.caloriesExt))
        (create_tcx_core
          ⟨⟨0, 0, 60000, some 1, none, none, some 50, some "Run", "s"⟩, [(30, 80)], some [(0, 6)]⟩)
      = Except.ok [tcxCalExt true (buildCalMap [(0, 6)]) 30] := by
  have h := c6_calories_per_second_amended true [(0, 6)] 30
  refine ⟨⟨(h.1 6 rfl (by decide)).1, (h.1 6 rfl (by decide)).2.1 (by norm_num)⟩, ?_⟩
  exact h.2.2.1
    ⟨⟨0, 0, 60000, some 1, none, none, some 50, some "Run", "s"⟩, [(30, 80)], some [(0, 6)]⟩
    50 (30, 80) [] rfl rfl

/-- C8 (counterexample): for a start-time zone offset of -07:00, every TCX
timestamp is the local wall-clock time with a `Z` (resp. `.000Z`) suffix —
not the UTC instant the spec prescribes, which is 7 hours later. -/
theorem c8_utc_timestamps_counterexample :
    Except.map (fun o => (o.idText, o.lapStartTime, o.trackpoints.map (·.timeText)))
        (create_tcx_core
          ⟨⟨1717232400, -25200, 60000, some 1, none, none, some 50, some "Run", "s"⟩,
            [(1717236000, 80)], none⟩)
      = Except.ok ("2024-06-01T09:00:00.000Z", "2024-06-01T09:00:00.000Z",
          ["2024-06-01T10:00:00Z"])
    ∧ specUtcTrackpointTime 1717236000 (-25200) = "2024-06-01T17:00:00Z"
    ∧ specUtcStartText 1717232400 (-25200) = "2024-06-01T16:00:00.000Z"
    ∧ ("2024-06-01T10:00:00Z" : String) ≠ specUtcTrackpointTime 1717236000 (-25200)
    ∧ ("2024-06-01T09:00:00.000Z" : String) ≠ specUtcStartText 1717232400 (-25200) := by
  refine ⟨by decide, by decide, by decide, by decide, by decide⟩

/-- C8 (amended): every Trackpoint Time element is the sample's **local
wall-clock** time (in the start time's zone) rendered at second precision
with a literal `Z` suffix, and the activity Id and Lap StartTime are the
local wall-clock start time with a literal `.000Z` suffix; these coincide
with the spec's UTC renderings exactly when the zone offset is zero. -/
theorem c8_utc_timestamps_amended (inp : TcxInput) (c : Int) (hd : Int × Int)
    (tl : List (Int × Int)) (h1 : inp.activity.calories = some c)
    (h2 : inp.hrSamples = hd :: tl) :
    ∃ out, create_tcx_core inp = Except.ok out
      ∧ out.idText = formatWall inp.activity.startWallSec ++ ".000Z"
      ∧ out.lapStartTime = out.idText
      ∧ out.trackpoints.map (·.timeText) = (hd :: tl).map (fun p => formatWall p.1 ++ "Z")
      ∧ (inp.activity.startOffsetSec = 0 →
          out.idText = specUtcStartText inp.activity.startWallSec inp.activity.startOffsetSec
          ∧ out.trackpoints.map (·.timeText) =
            (hd :: tl).map (fun p => specUtcTrackpointTime p.1 inp.activity.startOffsetSec)) := by
  have key : create_tcx_core inp = Except.ok (tcxBuild inp.activity c hd tl inp.calData) := by
    unfold create_tcx_core
    rw [h1, h2]
  refine ⟨_, key, rfl, rfl, ?_, ?_⟩
  · simp [tcxBuild, List.map_map, Function.comp]
  · intro h0
    constructor
    · show formatWall inp.activity.startWallSec ++ ".000Z" = _
      simp [specUtcStartText, h0]
    · simp [tcxBuild, specUtcTrackpointTime, h0, List.map_map, Function.comp]

/-- C8 (witness): with a zero zone offset the rendered Id and Trackpoint
time of a concrete activity agree with the spec's UTC renderings. -/
theorem c8_utc_timestamps_witness :
    ∃ out, create_tcx_core
        ⟨⟨1717232400, 0, 60000, some 1, none, none, some 50, some "Run", "s"⟩,
          [(1717236000, 80)], none⟩
      = Except.ok out
      ∧ out.idText = formatWall 1717232400 ++ ".000Z"
      ∧ out.lapStartTime = out.idText
      ∧ out.trackpoints.map (·.timeText) = [(1717236000, 80)].map (fun p => formatWall p.1 ++ "Z")
      ∧ ((0 : Int) = 0 →
          out.idText = specUtcStartText 1717232400 0
          ∧ out.trackpoints.map (·.timeText) =
            [(1717236000, 80)].map (fun p => specUtcTrackpointTime p.1 0)) :=
  c8_utc_timestamps_amended
    ⟨⟨1717232400, 0, 60000, some 1, none, none, some 50, some "Run", "s"⟩,
      [(1717236000, 80)], none⟩ 50 (1717236000, 80) [] rfl rfl

/-- The head-seeded left fold with `max` that models Python's `max` is a
member of the list and an upper bound of it. -/
lemma listMax_spec (x : Int) (xs : List Int) :
    listMax (x :: xs) ∈ x :: xs ∧ ∀ y ∈ x :: xs, y ≤ listMax (x :: xs) := by
  induction xs generalizing x with
  | nil =>
    constructor
    · simp [listMax]
    · intro y hy
      rw [List.mem_singleton] at hy
      simp [listMax, hy]
  | cons z t ih =>
    have heq : listMax (x :: z :: t) = listMax (max x z :: t) := rfl
    constructor
    · rw [heq]
      have hmem := (ih (max x z)).1
      rw [List.mem_cons] at hmem
      rcases hmem with hm | hm
      · rcases max_choice x z with hc | hc <;> rw [hm, hc] <;> simp
      · simp [List.mem_cons, hm]
    · intro y hy
      rw [heq]
      have hb := (ih (max x z)).2
      rw [List.mem_cons] at hy
      rcases hy with rfl | hy
      · exact le_trans (le_max_left y z) (hb _ (List.mem_cons_self _ _))
      · rw [List.mem_cons] at hy
        rcases hy with rfl | hy
        · exact le_trans (le_max_right x y) (hb _ (List.mem_cons_self _ _))
        · exact hb _ (List.mem_cons_of_mem _ hy)

/-- The head-seeded left fold with `min` that models Python's `min` is a
member of the list and a lower bound of it. -/
lemma listMin_spec (x : Int) (xs : List Int) :
    listMin (x :: xs) ∈ x :: xs ∧ ∀ y ∈ x :: xs, listMin (x :: xs) ≤ y := by
  induction xs generalizing x with
  | nil =>
    constructor
    · simp [listMin]
    · intro y hy
      rw [List.mem_singleton] at hy
      simp [listMin, hy]
  | cons z t ih =>
    have heq : listMin (x :: z :: t) = listMin (min x z :: t) := rfl
    constructor
    · rw [heq]
      have hmem := (ih (min x z)).1
      rw [List.mem_cons] at hmem
      rcases hmem with hm | hm
      · rcases min_choice x z with hc | hc <;> rw [hm, hc] <;> simp
      · simp [List.mem_cons, hm]
    · intro y hy
      rw [heq]
      have hb := (ih (min x z)).2
      rw [List.mem_cons] at hy
      rcases hy with rfl | hy
      · exact le_trans (hb _ (List.mem_cons_self _ _)) (min_le_left y z)
      · rw [List.mem_cons] at hy
        rcases hy with rfl | hy
        · exact le_trans (hb _ (List.mem_cons_self _ _)) (min_le_right x y)
        · exact hb _ (List.mem_cons_of_mem _ hy)

/-- C9 (counterexample): for the series 60, 100, 101 (minimum 60) the XML
encoder's only emitted heart-rate aggregates are the rounded mean "87" and
the maximum "101" — it computes and emits no minimum, contradicting
"minimum ... used by both encoders". -/
theorem c9_hr_stats_counterexample :
    listMin [(60 : Int), 100, 101] = 60
    ∧ Except.map (fun o => (o.avgHrValue, o.maxHrValue))
        (create_tcx_core
          ⟨⟨0, 0, 60000, some 1, none, none, some 50, some "Run", "s"⟩,
            [(0, 60), (60, 100), (120, 101)], none⟩)
      = Except.ok ("87", "101")
    ∧ ("87" : String) ≠ toString (listMin [(60 : Int), 100, 101])
    ∧ ("101" : String) ≠ toString (listMin [(60 : Int), 100, 101]) := by
  have h1 : pyRound (meanQ [(60 : Int), 100, 101]) = 87 := by
    norm_num [meanQ, pyRound, Rat.floor]
  have h2 : listMax [(60 : Int), 100, 101] = 101 := by decide
  refine ⟨by decide, ?_, by decide, by decide⟩
  simp [create_tcx_core, tcxBuild, h1, h2]
  rfl

/-- C9 (amended): for every non-empty heart-rate series, the binary
encoder's lap and session carry min = min(bpm), max = max(bpm) and
avg = round(mean(bpm)), and the XML encoder's lap carries the same rounded
mean and maximum — but the minimum is computed and used only by the binary
encoder; the min/max fields really are the least/greatest members of the
series. -/
theorem c9_hr_stats_amended (act : ActivityJson) (hd : Int × Int) (tl : List (Int × Int))
    (cal : Option (List (Int × ℚ))) (c : Int)
    (h1 : act.calories = some c) (h2 : act.durationMs ≠ 0) :
    (∃ t, create_tcx_core ⟨act, hd :: tl, cal⟩ = Except.ok t
      ∧ t.avgHrValue = toString (pyRound (meanQ ((hd :: tl).map (·.2))))
      ∧ t.maxHrValue = toString (listMax ((hd :: tl).map (·.2))))
    ∧ (∃ f, create_fit_core ⟨act, hd :: tl, cal⟩ = Except.ok f
      ∧ f.lap.minHeartRate = listMin ((hd :: tl).map (·.2))
      ∧ f.lap.maximumHeartRate = listMax ((hd :: tl).map (·.2))
      ∧ f.lap.averageHeartRate = pyRound (meanQ ((hd :: tl).map (·.2)))
      ∧ f.session.minHeartRate = f.lap.minHeartRate
      ∧ f.session.maximumHeartRate = f.lap.maximumHeartRate
      ∧ f.session.averageHeartRate = f.lap.averageHeartRate)
    ∧ listMin ((hd :: tl).map (·.2)) ∈ (hd :: tl).map (·.2)
    ∧ listMax ((hd :: tl).map (·.2)) ∈ (hd :: tl).map (·.2)
    ∧ (∀ y ∈ (hd :: tl).map (·.2),
        listMin ((hd :: tl).map (·.2)) ≤ y ∧ y ≤ listMax ((hd :: tl).map (·.2))) := by
  have keyT : create_tcx_core ⟨act, hd :: tl, cal⟩ = Except.ok (tcxBuild act c hd tl cal) := by
    unfold create_tcx_core
    rw [show (⟨act, hd :: tl, cal⟩ : TcxInput).activity.calories = some c from h1]
  have hd0 : ¬(act.durationMs / 1000 = (0 : ℚ)) := by
    simp [div_eq_zero_iff, h2]
  have keyF : create_fit_core ⟨act, hd :: tl, cal⟩ = Except.ok (fitBuild act hd tl cal) := by
    show (if act.durationMs / 1000 = (0 : ℚ) then Except.error EncodeError.zeroDivision
      else Except.ok (fitBuild act hd tl cal)) = Except.ok (fitBuild act hd tl cal)
    rw [if_neg hd0]
  have hmin := listMin_spec hd.2 (tl.map (·.2))
  have hmax := listMax_spec hd.2 (tl.map (·.2))
  refine ⟨⟨_, keyT, rfl, rfl⟩, ⟨_, keyF, rfl, rfl, rfl, rfl, rfl, rfl⟩, ?_, ?_, ?_⟩
  · simpa using hmin.1
  · simpa using hmax.1
  · intro y hy
    rw [List.map_cons] at hy
    exact ⟨hmin.2 y hy, hmax.2 y hy⟩

/-- C9 (witness): on the concrete series 60, 100, 101 the statistics in a
concrete run of both encoders agree with direct recomputation. -/
theorem c9_hr_stats_witness :
    (∃ t, create_tcx_core
        ⟨⟨0, 0, 60000, some 1, none, none, some 50, some "Run", "s"⟩,
          [(0, 60), (60, 100), (120, 101)], none⟩ = Except.ok t
      ∧ t.avgHrValue = toString (pyRound (meanQ ([((0 : Int), (60 : Int)), (60, 100), (120, 101)].map (·.2))))
      ∧ t.maxHrValue = toString (listMax ([((0 : Int), (60 : Int)), (60, 100), (120, 101)].map (·.2))))
    ∧ (∃ f, create_fit_core
        ⟨⟨0, 0, 60000, some 1, none, none, some 50, some "Run", "s"⟩,
          [(0, 60), (60, 100), (120, 101)], none⟩ = Except.ok f
      ∧ f.lap.minHeartRate = listMin ([((0 : Int), (60 : Int)), (60, 100), (120, 101)].map (·.2))
      ∧ f.lap.maximumHeartRate = listMax ([((0 : Int), (60 : Int)), (60, 100), (120, 101)].map (·.2))
      ∧ f.lap.averageHeartRate = pyRound (meanQ ([((0 : Int), (60 : Int)), (60, 100), (120, 101)].map (·.2)))
      ∧ f.session.minHeartRate = f.lap.minHeartRate
      ∧ f.session.maximumHeartRate = f.lap.maximumHeartRate
      ∧ f.session.averageHeartRate = f.lap.averageHeartRate)
    ∧ listMin ([((0 : Int), (60 : Int)), (60, 100), (120, 101)].map (·.2))
        ∈ [((0 : Int), (60 : Int)), (60, 100), (120, 101)].map (·.2)
    ∧ listMax ([((0 : Int), (60 : Int)), (60, 100), (120, 101)].map (·.2))
        ∈ [((0 : Int), (60 : Int)), (60, 100), (120, 101)].map (·.2)
    ∧ (∀ y ∈ [((0 : Int), (60 : Int)), (60, 100), (120, 101)].map (·.2),
        listMin ([((0 : Int), (60 : Int)), (60, 100), (120, 101)].map (·.2)) ≤ y
        ∧ y ≤ listMax ([((0 : Int), (60 : Int)), (60, 100), (120, 101)].map (·.2))) :=
  c9_hr_stats_amended ⟨0, 0, 60000, some 1, none, none, some 50, some "Run", "s"⟩
    (0, 60) [(60, 100), (120, 101)] none 50 rfl (by norm_num)

end Fitbit2Garmin
